import Mathlib

/-!
# Verification of `mine_shared_prt.cc` (a hand-rolled `shared_ptr<T>`)

Shallow embedding of the reference-counted smart pointer implemented in
`src/mine_shared_prt.cc`.  The C++ class holds two raw pointers:

  * `T* _ptr;`                              — the managed object
  * `std::atomic<std::size_t>* _ref_count;` — the heap-allocated counter

We model pointers as `Option Nat` (`none` = `nullptr`, `some a` = address `a`)
and the heap explicitly: the set of live managed-object addresses and an
association list from control-block addresses to counter values.  The
`std::size_t` counter wraps modulo `2 ^ 64`, so `fetch_add`/`fetch_sub` are
modelled with explicit `% 2 ^ 64` arithmetic.  Atomic memory orderings have no
sequential content and are not modelled; each operation is a deterministic
state transition, exactly as the single-threaded semantics of the source.

`operator new` can fail (`std::bad_alloc`); fallible operations therefore take
an allocation oracle `allocOk : Bool` and return `Except`, where the error
carries the state left behind when the exception propagates.

Assignment operators compare `this != &other` — instance identity.  To model
that faithfully, `World` keeps the live `shared_ptr` instances in an
association list indexed by instance address, and the assignment operators act
on two instance addresses.
-/

namespace SharedPtrSpec

/-- Modulus of `std::size_t` (64-bit). -/
def W64 : Nat := 2 ^ 64

/-- Association-list lookup (first match wins), keys are `Nat` addresses. -/
def alookup {β : Type} (k : Nat) : List (Nat × β) → Option β
  | [] => none
  | (k', v) :: l => if k' = k then some v else alookup k l

/-- Replace the value stored at key `k` (no effect if `k` is absent). -/
def aupdate {β : Type} (k : Nat) (v : β) : List (Nat × β) → List (Nat × β)
  | [] => []
  | q :: l => if q.1 = k then (k, v) :: aupdate k v l else q :: aupdate k v l

/-- Remove every entry with key `k`. -/
def aremove {β : Type} (k : Nat) : List (Nat × β) → List (Nat × β)
  | [] => []
  | q :: l => if q.1 = k then aremove k l else q :: aremove k l

/-- Membership of an address in a list of live addresses. -/
def memNat (a : Nat) : List Nat → Bool
  | [] => false
  | x :: l => if x = a then true else memNat a l

/-- Remove an address from a list of live addresses. -/
def removeAll (a : Nat) : List Nat → List Nat
  | [] => []
  | x :: l => if x = a then removeAll a l else x :: removeAll a l

/-- The heap outside any one instance: which managed objects are live, which
control blocks are live (with their counter value), and the next fresh
control-block address handed out by `operator new`. -/
structure Heap where
  objs : List Nat
  blocks : List (Nat × Nat)
  nextB : Nat
  deriving Repr, DecidableEq

/-- Current value of the counter stored in control block `rc` (`0` if the
block is not live — such an access is UB in the C++ source and every theorem
below assumes a live block where it matters). -/
def Heap.ctr (h : Heap) (rc : Nat) : Nat :=
  (alookup rc h.blocks).getD 0

/-- Is control block `rc` live (allocated and not yet deleted)? -/
def Heap.blockLive (h : Heap) (rc : Nat) : Bool :=
  (alookup rc h.blocks).isSome

/-- Is the managed object at address `a` live? -/
def Heap.objLive (h : Heap) (a : Nat) : Bool :=
  memNat a h.objs

/-- Deletion of the managed object: `std::default_delete<T>{}(_ptr)` with
`_ptr` possibly null (deleting a null pointer is a no-op). -/
def Heap.deleteObj (h : Heap) (p : Option Nat) : Heap :=
  match p with
  | none => h
  | some a => { h with objs := removeAll a h.objs }

/-- One `shared_ptr<T>` instance: the pair `(_ptr, _ref_count)` of
`mine_shared_prt.cc` lines 36–37. -/
structure shared_ptr where
  _ptr : Option Nat
  _ref_count : Option Nat
  deriving Repr, DecidableEq

/-- The member `release()` (lines 41–50):
```
if (_ref_count && _ref_count->fetch_sub(1, acq_rel) == 1) {
  std::default_delete<T>{}(_ptr);
  delete _ref_count;
}
```
`fetch_sub` returns the pre-decrement value and stores `pre - 1` (mod `2^64`,
`std::size_t` wraps); when the returned value is `1` the managed object and
then the control block are destroyed. -/
def shared_ptr.release (sp : shared_ptr) (h : Heap) : Heap :=
  match sp._ref_count with
  | none => h
  | some rc =>
    let pre := h.ctr rc
    let h1 : Heap := { h with blocks := aupdate rc ((pre + (W64 - 1)) % W64) h.blocks }
    if pre = 1 then
      let h2 := h1.deleteObj sp._ptr
      { h2 with blocks := aremove rc h2.blocks }
    else h1

/-- Default constructor (lines 54–56): the null instance. -/
def shared_ptr.default : shared_ptr := ⟨none, none⟩

/-- The constructor `explicit shared_ptr(T* p)` (lines 62–69): `_ptr` is initialised to `p`;
if `p` is non-null a fresh control block with counter `1` is allocated.  The
allocation can fail (`allocOk = false`): the `std::bad_alloc` propagates out of
the constructor and no instance comes into being; the error carries the heap as
the exception leaves it. -/
def shared_ptr.ofRaw (h : Heap) (allocOk : Bool) (p : Option Nat) :
    Except Heap (shared_ptr × Heap) :=
  match p with
  | none => .ok (⟨none, none⟩, h)
  | some _ =>
    if allocOk then
      let rc := h.nextB
      .ok (⟨p, some rc⟩, { h with blocks := (rc, 1) :: h.blocks, nextB := rc + 1 })
    else
      .error h

/-- Destructor (lines 72–74): just `release()`. -/
def shared_ptr.dtor (sp : shared_ptr) (h : Heap) : Heap :=
  sp.release h

/-- Copy constructor (lines 78–86): adopt `other`'s fields; if the control
block is non-null, `fetch_add(1, relaxed)`.  Returns the new instance and the
heap. -/
def shared_ptr.copyCtor (other : shared_ptr) (h : Heap) : shared_ptr × Heap :=
  let sp : shared_ptr := ⟨other._ptr, other._ref_count⟩
  match other._ref_count with
  | none => (sp, h)
  | some rc => (sp, { h with blocks := aupdate rc ((h.ctr rc + 1) % W64) h.blocks })

/-- Move constructor (lines 110–114): steal `other`'s fields, null `other`,
never touch the counter, `noexcept` (total, no error case).  Returns
(new instance, `other` afterwards). -/
def shared_ptr.moveCtor (other : shared_ptr) : shared_ptr × shared_ptr :=
  (⟨other._ptr, other._ref_count⟩, ⟨none, none⟩)

/-- The member `use_count()` (lines 143–145): the counter's current value, `0` if null. -/
def shared_ptr.use_count (sp : shared_ptr) (h : Heap) : Nat :=
  match sp._ref_count with
  | none => 0
  | some rc => h.ctr rc

/-- The member `get()` (lines 148–150). -/
def shared_ptr.get (sp : shared_ptr) : Option Nat :=
  sp._ptr

/-- The member `reset(T* p = nullptr)` (lines 153–157):
```
release();
_ptr = p;
_ref_count = p ? new std::atomic<std::size_t>(1) : nullptr;
```
When `p` is non-null and the allocation fails, the exception propagates with
`_ptr` already set to `p` and `_ref_count` still holding its previous value
(the assignment never executed); the error carries that instance state and the
post-`release` heap. -/
def shared_ptr.reset (sp : shared_ptr) (h : Heap) (allocOk : Bool) (p : Option Nat) :
    Except (shared_ptr × Heap) (shared_ptr × Heap) :=
  let h1 := sp.release h
  match p with
  | none => .ok (⟨none, none⟩, h1)
  | some _ =>
    if allocOk then
      let rc := h1.nextB
      .ok (⟨p, some rc⟩, { h1 with blocks := (rc, 1) :: h1.blocks, nextB := rc + 1 })
    else
      .error (⟨p, sp._ref_count⟩, h1)

/-- A world of live instances (keyed by instance address, for the
`this != &other` identity comparison) together with the heap. -/
structure World where
  heap : Heap
  insts : List (Nat × shared_ptr)
  deriving Repr, DecidableEq

/-- Copy assignment `insts[i] = insts[j]` (lines 90–104):
`if (this != &other) { release(); adopt fields; if (_ref_count) fetch_add(1); }`.
`i` is `this`, `j` is `&other`; `i = j` is the self-assignment no-op. -/
def World.copyAssign (w : World) (i j : Nat) : World :=
  if i = j then w
  else
    match alookup i w.insts, alookup j w.insts with
    | some a, some b =>
      let h1 := a.release w.heap
      let sp : shared_ptr := ⟨b._ptr, b._ref_count⟩
      let h2 := match b._ref_count with
        | none => h1
        | some rc => { h1 with blocks := aupdate rc ((h1.ctr rc + 1) % W64) h1.blocks }
      ⟨h2, aupdate i sp w.insts⟩
    | _, _ => w

/-- Move assignment `insts[i] = std::move(insts[j])` (lines 117–127):
`if (this != &other) { release(); adopt fields; null out other; }`, `noexcept`
(total, no error case). -/
def World.moveAssign (w : World) (i j : Nat) : World :=
  if i = j then w
  else
    match alookup i w.insts, alookup j w.insts with
    | some a, some b =>
      let h1 := a.release w.heap
      ⟨h1, aupdate j ⟨none, none⟩ (aupdate i ⟨b._ptr, b._ref_count⟩ w.insts)⟩
    | _, _ => w

/-- The data-model invariant of the spec: `_ptr` and `_ref_count` are null
together or non-null together. -/
def shared_ptr.bothNullInv (sp : shared_ptr) : Bool :=
  sp._ptr.isSome == sp._ref_count.isSome

/-! ## Basic lemmas about the heap primitives -/

theorem alookup_aupdate_self {β : Type} (k : Nat) (v : β) (l : List (Nat × β)) :
    alookup k (aupdate k v l) = (alookup k l).map (fun _ => v) := by
  induction l with
  | nil => rfl
  | cons q l ih =>
    obtain ⟨k', v'⟩ := q
    by_cases hk : k' = k
    · subst hk
      simp [aupdate, alookup]
    · simp [aupdate, alookup, hk, ih]

theorem alookup_aupdate_ne {β : Type} {k k' : Nat} (v : β) (l : List (Nat × β))
    (hkk : k' ≠ k) : alookup k (aupdate k' v l) = alookup k l := by
  induction l with
  | nil => rfl
  | cons q l ih =>
    obtain ⟨k'', v'⟩ := q
    by_cases hk : k'' = k'
    · subst hk
      simp [aupdate, alookup, hkk, ih]
    · by_cases hk2 : k'' = k
      · subst hk2
        simp [aupdate, alookup, hk]
      · simp [aupdate, alookup, hk, hk2, ih]

theorem alookup_aupdate_cases {β : Type} (k i : Nat) (v : β) (l : List (Nat × β)) (c : β)
    (h : alookup k (aupdate i v l) = some c) : c = v ∨ alookup k l = some c := by
  induction l with
  | nil => exact absurd h (by simp [aupdate, alookup])
  | cons q l ih =>
    obtain ⟨k', v'⟩ := q
    by_cases hk : k' = i
    · subst hk
      by_cases hik : k' = k
      · subst hik
        simp [aupdate, alookup] at h
        exact Or.inl h.symm
      · simp [aupdate, alookup, hik] at h ⊢
        exact ih h
    · by_cases hkk : k' = k
      · subst hkk
        simp [aupdate, alookup, hk] at h ⊢
        exact Or.inr h
      · simp [aupdate, alookup, hk, hkk] at h ⊢
        exact ih h

theorem alookup_aremove_self {β : Type} (k : Nat) (l : List (Nat × β)) :
    alookup k (aremove k l) = none := by
  induction l with
  | nil => rfl
  | cons q l ih =>
    obtain ⟨k', v'⟩ := q
    by_cases hk : k' = k
    · subst hk
      simp [aremove, ih]
    · simp [aremove, alookup, hk, ih]

theorem alookup_aremove_ne {β : Type} {k k' : Nat} (l : List (Nat × β))
    (hkk : k' ≠ k) : alookup k (aremove k' l) = alookup k l := by
  induction l with
  | nil => rfl
  | cons q l ih =>
    obtain ⟨k'', v'⟩ := q
    by_cases hk : k'' = k'
    · subst hk
      simp [aremove, alookup, hkk, ih]
    · by_cases hk2 : k'' = k
      · subst hk2
        simp [aremove, alookup, hk]
      · simp [aremove, alookup, hk, hk2, ih]

theorem memNat_removeAll_self (a : Nat) (l : List Nat) :
    memNat a (removeAll a l) = false := by
  induction l with
  | nil => rfl
  | cons x l ih =>
    by_cases hx : x = a
    · subst hx
      simp [removeAll, ih]
    · simp [removeAll, memNat, hx, ih]

theorem memNat_removeAll_ne {a b : Nat} (l : List Nat) (hba : a ≠ b) :
    memNat b (removeAll a l) = memNat b l := by
  induction l with
  | nil => rfl
  | cons x l ih =>
    by_cases hx : x = a
    · subst hx
      simp [removeAll, memNat, hba, ih]
    · by_cases hx2 : x = b
      · subst hx2
        simp [removeAll, memNat, hx]
      · simp [removeAll, memNat, hx, hx2, ih]

/-- The modulus of `std::size_t` as a numeral. -/
theorem W64_eq : W64 = 18446744073709551616 := by norm_num [W64]

/-- Releasing an instance whose `_ref_count` is not `some rc` never changes
what is stored at control-block address `rc`. -/
theorem release_preserves_other_block (b : shared_ptr) (h : Heap) (rc : Nat)
    (hb : b._ref_count ≠ some rc) :
    alookup rc (b.release h).blocks = alookup rc h.blocks := by
  unfold shared_ptr.release
  cases hrc : b._ref_count with
  | none => rfl
  | some rc' =>
    have hne : rc' ≠ rc := fun he => hb (he ▸ hrc)
    by_cases hpre : h.ctr rc' = 1
    · simp only [hpre, if_pos]
      cases hp : b._ptr with
      | none =>
        simp [Heap.deleteObj, alookup_aremove_ne _ hne, alookup_aupdate_ne _ _ hne]
      | some a =>
        simp [Heap.deleteObj, alookup_aremove_ne _ hne, alookup_aupdate_ne _ _ hne]
    · simp only [hpre, if_neg, ite_false]
      simp [alookup_aupdate_ne _ _ hne]

/-! ## Claim theorems -/

/-- C1: for every `shared_ptr` instance, `release` is a no-op when the
control-block pointer is null; when it is non-null it decrements the counter,
and it destroys the managed object and then frees the control block if and
only if the pre-decrement counter value was exactly `1` (for a valid counter
value `n` with `2 ≤ n < 2^64`, the counter becomes `n - 1` and both the block
and the managed object stay live). -/
theorem C1_release_correct (sp : shared_ptr) (h : Heap) :
    (sp._ref_count = none → sp.release h = h) ∧
    (∀ rc, sp._ref_count = some rc →
      (h.ctr rc = 1 →
        (sp.release h).blockLive rc = false ∧
        (∀ a, sp._ptr = some a → (sp.release h).objLive a = false)) ∧
      (∀ n, h.ctr rc = n → 2 ≤ n → n < W64 →
        (sp.release h).ctr rc = n - 1 ∧
        (sp.release h).blockLive rc = true ∧
        (sp.release h).objs = h.objs)) := by
  constructor
  · intro h0
    simp [shared_ptr.release, h0]
  · intro rc hrc
    constructor
    · intro hpre
      simp only [shared_ptr.release, hrc, hpre, if_pos]
      constructor
      · cases hp : sp._ptr with
        | none =>
          simp [Heap.deleteObj, Heap.blockLive, alookup_aremove_self]
        | some a =>
          simp [Heap.deleteObj, Heap.blockLive, alookup_aremove_self]
      · intro a hp
        simp [hp, Heap.deleteObj, Heap.objLive, memNat_removeAll_self]
    · intro n hn h2n hnW
      have hl : alookup rc h.blocks = some n := by
        unfold Heap.ctr at hn
        cases he : alookup rc h.blocks with
        | none => rw [he] at hn; simp at hn; omega
        | some m => rw [he] at hn; simpa using hn
      have hne1 : ¬ h.ctr rc = 1 := by omega
      have hv : (n + (W64 - 1)) % W64 = n - 1 := by
        rw [W64_eq] at hnW ⊢
        omega
      simp only [shared_ptr.release, hrc, hne1, if_neg, ite_false]
      refine ⟨?_, ?_, trivial⟩
      · simp [Heap.ctr, alookup_aupdate_self, hl, hn, hv]
      · simp [Heap.blockLive, alookup_aupdate_self, hl]

/-- Witness for C1 at a concrete instance: one of two owners of block `0`
(counter `2`) releases; the counter drops to `1` and the block stays live. -/
theorem C1_release_correct_witness :
    Heap.ctr ⟨[5], [(0, 2)], 1⟩ 0 = 2 ∧
    (shared_ptr.release ⟨some 5, some 0⟩ ⟨[5], [(0, 2)], 1⟩).ctr 0 = 1 ∧
    (shared_ptr.release ⟨some 5, some 0⟩ ⟨[5], [(0, 2)], 1⟩).blockLive 0 = true := by
  have H := (C1_release_correct ⟨some 5, some 0⟩ ⟨[5], [(0, 2)], 1⟩).2 0 rfl
  have H2 := H.2 2 rfl (by norm_num) (by rw [W64_eq]; norm_num)
  exact ⟨rfl, H2.1, H2.2.1⟩

/-- C3 (evaluated at the failing input): with a live managed object at address
`7` and the control-block allocation failing, both the raw-pointer constructor
and `reset` propagate the allocation error *without* destroying the object at
`p` — it stays live with no completed owning instance, i.e. it is leaked, and
`reset` additionally leaves the instance as `(_ptr = 7, _ref_count = null)`.
This contradicts the claim that the managed object at `p` is destroyed before
the error surfaces. -/
theorem C3_alloc_failure_leaks :
    shared_ptr.ofRaw ⟨[7], [], 0⟩ false (some 7) = .error ⟨[7], [], 0⟩ ∧
    shared_ptr.reset ⟨none, none⟩ ⟨[7], [], 0⟩ false (some 7)
      = .error (⟨some 7, none⟩, ⟨[7], [], 0⟩) ∧
    Heap.objLive ⟨[7], [], 0⟩ 7 = true :=
  ⟨rfl, rfl, rfl⟩

/-- C5: self-assignment `a = a`, by copy or by move, is a no-op — the world is
left completely unchanged (the identity comparison `this != &other` short-cuts
before any mutation), so `a.use_count()`, `a.get()` and the liveness of the
managed object are all unchanged. -/
theorem C5_self_assignment_noop (w : World) (i : Nat) (a : shared_ptr)
    (ha : alookup i w.insts = some a) :
    w.copyAssign i i = w ∧ w.moveAssign i i = w ∧
    alookup i (w.copyAssign i i).insts = some a ∧
    a.use_count (w.copyAssign i i).heap = a.use_count w.heap ∧
    (∀ p, a._ptr = some p → (w.copyAssign i i).heap.objLive p = w.heap.objLive p) := by
  have hc : w.copyAssign i i = w := by simp [World.copyAssign]
  have hm : w.moveAssign i i = w := by simp [World.moveAssign]
  refine ⟨hc, hm, ?_, ?_, ?_⟩
  · rw [hc]
    exact ha
  · rw [hc]
  · intro p hp
    rw [hc]

/-- Witness for C5: a world with a single owner, self-assigned both ways. -/
theorem C5_self_assignment_noop_witness :
    World.copyAssign ⟨⟨[5], [(0, 1)], 1⟩, [(0, ⟨some 5, some 0⟩)]⟩ 0 0
      = ⟨⟨[5], [(0, 1)], 1⟩, [(0, ⟨some 5, some 0⟩)]⟩ ∧
    World.moveAssign ⟨⟨[5], [(0, 1)], 1⟩, [(0, ⟨some 5, some 0⟩)]⟩ 0 0
      = ⟨⟨[5], [(0, 1)], 1⟩, [(0, ⟨some 5, some 0⟩)]⟩ := by
  have H := C5_self_assignment_noop ⟨⟨[5], [(0, 1)], 1⟩, [(0, ⟨some 5, some 0⟩)]⟩ 0
    ⟨some 5, some 0⟩ rfl
  exact ⟨H.1, H.2.1⟩

/-- C6 counterexample: two instances already share control block `0` with
counter `2`; copy assignment `b = a` (destination index `1`, source index `0`)
ends with counter `2`, not the pre-copy count plus one (`3`): the destination's
prior reference is released first, so the net change is zero. -/
theorem C6_counterexample :
    alookup 1 ((⟨⟨[5], [(0, 2)], 1⟩,
        [(0, ⟨some 5, some 0⟩), (1, ⟨some 5, some 0⟩)]⟩ : World).copyAssign 1 0).insts
      = some ⟨some 5, some 0⟩ ∧
    shared_ptr.use_count ⟨some 5, some 0⟩ ((⟨⟨[5], [(0, 2)], 1⟩,
        [(0, ⟨some 5, some 0⟩), (1, ⟨some 5, some 0⟩)]⟩ : World).copyAssign 1 0).heap = 2 ∧
    (2 : Nat) ≠ 2 + 1 :=
  ⟨rfl, rfl, by decide⟩

/-- C6 (amended): for an instance `a` owning a block with counter `n`, copy
*construction* from `a`, and copy *assignment* `b = a` into a distinct
instance `b` that does not already reference `a`'s control block, both leave
`a` and the copy with `use_count` equal to `n + 1` and equal `get()`. -/
theorem C6_copy_increments_count (w : World) (i j : Nat) (a b : shared_ptr) (rc n : Nat)
    (hij : j ≠ i) (hi : alookup i w.insts = some a) (hj : alookup j w.insts = some b)
    (hrc : a._ref_count = some rc) (hb : b._ref_count ≠ some rc)
    (hn : alookup rc w.heap.blocks = some n) (hnW : n + 1 < W64) :
    a.use_count w.heap = n ∧
    ((a.copyCtor w.heap).1.use_count (a.copyCtor w.heap).2 = n + 1 ∧
     a.use_count (a.copyCtor w.heap).2 = n + 1 ∧
     (a.copyCtor w.heap).1.get = a.get) ∧
    (alookup j (w.copyAssign j i).insts = some ⟨a._ptr, a._ref_count⟩ ∧
     alookup i (w.copyAssign j i).insts = some a ∧
     shared_ptr.use_count ⟨a._ptr, a._ref_count⟩ (w.copyAssign j i).heap = n + 1 ∧
     a.use_count (w.copyAssign j i).heap = n + 1 ∧
     shared_ptr.get ⟨a._ptr, a._ref_count⟩ = a.get) := by
  have hv : (n + 1) % W64 = n + 1 := Nat.mod_eq_of_lt hnW
  refine ⟨?_, ⟨?_, ?_, ?_⟩, ?_⟩
  · simp [shared_ptr.use_count, hrc, Heap.ctr, hn]
  · simp [shared_ptr.copyCtor, hrc, shared_ptr.use_count, Heap.ctr,
      alookup_aupdate_self, hn, hv]
  · simp [shared_ptr.copyCtor, hrc, shared_ptr.use_count, Heap.ctr,
      alookup_aupdate_self, hn, hv]
  · simp [shared_ptr.copyCtor, hrc, shared_ptr.get]
  · have hrel : alookup rc (b.release w.heap).blocks = some n := by
      rw [release_preserves_other_block b w.heap rc hb]
      exact hn
    unfold World.copyAssign
    rw [if_neg hij]
    simp only [hj, hi, hrc]
    refine ⟨?_, ?_, ?_, ?_, rfl⟩
    · rw [alookup_aupdate_self, hj]
      rfl
    · rw [alookup_aupdate_ne _ _ hij]
      exact hi
    · simp [shared_ptr.use_count, hrc, Heap.ctr, alookup_aupdate_self, hrel, hv]
    · simp [shared_ptr.use_count, hrc, Heap.ctr, alookup_aupdate_self, hrel, hv]

/-- Witness for C6: `a` (index 0) sole owner of block `0`, `b` (index 1) sole
owner of the unrelated block `2`; after `b = a` the shared counter is `2`. -/
theorem C6_copy_increments_count_witness :
    shared_ptr.use_count ⟨some 5, some 0⟩ ((⟨⟨[5, 6], [(0, 1), (2, 1)], 3⟩,
        [(0, ⟨some 5, some 0⟩), (1, ⟨some 6, some 2⟩)]⟩ : World).copyAssign 1 0).heap = 2 ∧
    alookup 1 ((⟨⟨[5, 6], [(0, 1), (2, 1)], 3⟩,
        [(0, ⟨some 5, some 0⟩), (1, ⟨some 6, some 2⟩)]⟩ : World).copyAssign 1 0).insts
      = some ⟨some 5, some 0⟩ := by
  have H := C6_copy_increments_count
    ⟨⟨[5, 6], [(0, 1), (2, 1)], 3⟩, [(0, ⟨some 5, some 0⟩), (1, ⟨some 6, some 2⟩)]⟩
    0 1 ⟨some 5, some 0⟩ ⟨some 6, some 2⟩ 0 1
    (by decide) rfl rfl rfl (by decide) rfl (by rw [W64_eq]; norm_num)
  exact ⟨H.2.2.2.2.1, H.2.2.1⟩

/-- C7 counterexample: two distinct instances share control block `0` with
counter `2`; after move assignment `b = move(a)` the counter is `1`, not
unchanged (`2`): the destination's prior reference to the same block is
released first. -/
theorem C7_counterexample :
    Heap.ctr ⟨[5], [(0, 2)], 1⟩ 0 = 2 ∧
    Heap.ctr ((⟨⟨[5], [(0, 2)], 1⟩,
        [(0, ⟨some 5, some 0⟩), (1, ⟨some 5, some 0⟩)]⟩ : World).moveAssign 1 0).heap 0 = 1 ∧
    (1 : Nat) ≠ 2 :=
  ⟨rfl, rfl, by decide⟩

/-- C7 (amended): move construction from `a`, and move assignment
`b = move(a)` into a distinct instance `b` that does not already reference
`a`'s control block, transfer `a`'s fields to the destination, null `a` out
(so `a.get() = null`, `a.use_count() = 0`), and leave the moved control
block's counter unchanged; both operations are total (they cannot raise a
failure, matching `noexcept`). -/
theorem C7_move_transfers (w : World) (i j : Nat) (a b : shared_ptr) (rc n : Nat)
    (hij : j ≠ i) (hi : alookup i w.insts = some a) (hj : alookup j w.insts = some b)
    (hrc : a._ref_count = some rc) (hb : b._ref_count ≠ some rc)
    (hn : alookup rc w.heap.blocks = some n) :
    a.use_count w.heap = n ∧
    ((shared_ptr.moveCtor a).1.get = a.get ∧
     (shared_ptr.moveCtor a).1.use_count w.heap = a.use_count w.heap ∧
     (shared_ptr.moveCtor a).2.get = none ∧
     (shared_ptr.moveCtor a).2.use_count w.heap = 0) ∧
    (alookup j (w.moveAssign j i).insts = some ⟨a._ptr, a._ref_count⟩ ∧
     alookup i (w.moveAssign j i).insts = some ⟨none, none⟩ ∧
     shared_ptr.get ⟨a._ptr, a._ref_count⟩ = a.get ∧
     shared_ptr.use_count ⟨none, none⟩ (w.moveAssign j i).heap = 0 ∧
     alookup rc (w.moveAssign j i).heap.blocks = some n) := by
  refine ⟨?_, ⟨rfl, rfl, rfl, rfl⟩, ?_⟩
  · simp [shared_ptr.use_count, hrc, Heap.ctr, hn]
  · have hrel : alookup rc (b.release w.heap).blocks = some n := by
      rw [release_preserves_other_block b w.heap rc hb]
      exact hn
    unfold World.moveAssign
    rw [if_neg hij]
    simp only [hj, hi]
    refine ⟨?_, ?_, trivial, rfl, hrel⟩
    · rw [alookup_aupdate_ne _ _ (Ne.symm hij), alookup_aupdate_self, hj]
      rfl
    · rw [alookup_aupdate_self, alookup_aupdate_ne _ _ hij, hi]
      rfl

/-- Witness for C7: `a` (index 0) owns block `0`, `b` (index 1) owns the
unrelated block `2`; after `b = move(a)`, `b` holds `a`'s fields, `a` is
null, and block `0` still has counter `1`. -/
theorem C7_move_transfers_witness :
    alookup 1 ((⟨⟨[5, 6], [(0, 1), (2, 1)], 3⟩,
        [(0, ⟨some 5, some 0⟩), (1, ⟨some 6, some 2⟩)]⟩ : World).moveAssign 1 0).insts
      = some ⟨some 5, some 0⟩ ∧
    alookup 0 ((⟨⟨[5, 6], [(0, 1), (2, 1)], 3⟩,
        [(0, ⟨some 5, some 0⟩), (1, ⟨some 6, some 2⟩)]⟩ : World).moveAssign 1 0).insts
      = some ⟨none, none⟩ ∧
    alookup 0 ((⟨⟨[5, 6], [(0, 1), (2, 1)], 3⟩,
        [(0, ⟨some 5, some 0⟩), (1, ⟨some 6, some 2⟩)]⟩ : World).moveAssign 1 0).heap.blocks
      = some 1 := by
  have H := C7_move_transfers
    ⟨⟨[5, 6], [(0, 1), (2, 1)], 3⟩, [(0, ⟨some 5, some 0⟩), (1, ⟨some 6, some 2⟩)]⟩
    0 1 ⟨some 5, some 0⟩ ⟨some 6, some 2⟩ 0 1
    (by decide) rfl rfl rfl (by decide) rfl
  exact ⟨H.2.2.1, H.2.2.2.1, H.2.2.2.2.2.2⟩

/-- C8: `reset(p)` first releases the currently owned resource and then
behaves exactly as construction from the raw pointer `p` on the post-release
heap: any successful outcome of the raw-pointer constructor is the outcome of
`reset`; with non-null `p` the result has a fresh control block with counter
`1` (`use_count() = 1`); with null `p` the result is the null state.  In
particular `reset(p2)` on a sole owner of `p1` (counter `1`) destroys the
object at `p1` before adopting `p2`, and reports `use_count() = 1`. -/
theorem C8_reset_behaves_as_ctor (h : Heap) (p1 p2 rc : Nat)
    (hc : alookup rc h.blocks = some 1) :
    (∀ (sp₀ : shared_ptr) (h₀ : Heap),
        sp₀.reset h₀ true none = .ok (⟨none, none⟩, sp₀.release h₀)) ∧
    (∀ (sp₀ : shared_ptr) (h₀ : Heap) (q : Option Nat) (sp' : shared_ptr) (h' : Heap),
        shared_ptr.ofRaw (sp₀.release h₀) true q = .ok (sp', h') →
        sp₀.reset h₀ true q = .ok (sp', h')) ∧
    (∀ (sp₀ : shared_ptr) (h₀ : Heap) (q : Nat) (sp' : shared_ptr) (h' : Heap),
        sp₀.reset h₀ true (some q) = .ok (sp', h') →
        sp'.use_count h' = 1 ∧ sp'.get = some q) ∧
    (∀ (sp' : shared_ptr) (h' : Heap),
        shared_ptr.reset ⟨some p1, some rc⟩ h true (some p2) = .ok (sp', h') →
        h'.objLive p1 = false ∧ sp'.use_count h' = 1 ∧ sp'.get = some p2) := by
  refine ⟨fun sp₀ h₀ => rfl, ?_, ?_, ?_⟩
  · intro sp₀ h₀ q sp' h' hq
    cases q with
    | none => simpa [shared_ptr.ofRaw, shared_ptr.reset] using hq
    | some q' => simpa [shared_ptr.ofRaw, shared_ptr.reset] using hq
  · intro sp₀ h₀ q sp' h' hq
    simp only [shared_ptr.reset, if_pos, ite_true, Except.ok.injEq, Prod.mk.injEq] at hq
    obtain ⟨hsp', hh'⟩ := hq
    subst hsp'
    subst hh'
    constructor
    · simp [shared_ptr.use_count, Heap.ctr, alookup]
    · rfl
  · intro sp' h' hq
    have hctr : Heap.ctr h rc = 1 := by simp [Heap.ctr, hc]
    simp only [shared_ptr.reset, shared_ptr.release, hctr, if_pos, ite_true,
      Heap.deleteObj, Except.ok.injEq, Prod.mk.injEq] at hq
    obtain ⟨hsp', hh'⟩ := hq
    subst hsp'
    subst hh'
    refine ⟨?_, ?_, rfl⟩
    · simp [Heap.objLive, memNat_removeAll_self]
    · simp [shared_ptr.use_count, Heap.ctr, alookup]

/-- Witness for C8: the sole owner of object `3` (block `9`, counter `1`)
is reset to a fresh object `4`; object `3` is destroyed and the new counter
is `1`. -/
theorem C8_reset_behaves_as_ctor_witness :
    Heap.objLive (⟨[], [(0, 1)], 1⟩ : Heap) 3 = false ∧
    shared_ptr.use_count ⟨some 4, some 0⟩ ⟨[], [(0, 1)], 1⟩ = 1 ∧
    shared_ptr.get ⟨some 4, some 0⟩ = some 4 := by
  have H := C8_reset_behaves_as_ctor ⟨[3], [(9, 1)], 0⟩ 3 4 9 rfl
  have H4 := H.2.2.2 ⟨some 4, some 0⟩ ⟨[], [(0, 1)], 1⟩ rfl
  exact ⟨H4.1, H4.2.1, H4.2.2⟩

/-- C9 counterexample: a null instance (invariant holds) on which `reset(p)`
with non-null `p` suffers a control-block allocation failure is left with
`_ptr = p` non-null and `_ref_count` null — the both-null-or-both-non-null
invariant is broken by the error path of `reset`. -/
theorem C9_counterexample :
    shared_ptr.bothNullInv ⟨none, none⟩ = true ∧
    shared_ptr.reset ⟨none, none⟩ ⟨[], [], 0⟩ false (some 3)
      = .error (⟨some 3, none⟩, ⟨[], [], 0⟩) ∧
    shared_ptr.bothNullInv ⟨some 3, none⟩ = false :=
  ⟨rfl, rfl, rfl⟩

/-- C9 (amended): every public operation that does not raise an allocation
failure — default construction, raw-pointer construction, copy and move
construction, copy and move assignment, successful `reset`, and destruction
(which only touches the heap, not the fields) — preserves the invariant that
`_ptr` and `_ref_count` are null together or non-null together. -/
theorem C9_inv_preserved (sp other : shared_ptr) (h : Heap) (w : World) (i j : Nat)
    (hother : other.bothNullInv = true)
    (hw : ∀ k c, alookup k w.insts = some c → c.bothNullInv = true) :
    shared_ptr.default.bothNullInv = true ∧
    (∀ (p : Option Nat) (sp' : shared_ptr) (h' : Heap),
        shared_ptr.ofRaw h true p = .ok (sp', h') → sp'.bothNullInv = true) ∧
    (other.copyCtor h).1.bothNullInv = true ∧
    ((shared_ptr.moveCtor other).1.bothNullInv = true ∧
     (shared_ptr.moveCtor other).2.bothNullInv = true) ∧
    (∀ k c, alookup k (w.copyAssign i j).insts = some c → c.bothNullInv = true) ∧
    (∀ k c, alookup k (w.moveAssign i j).insts = some c → c.bothNullInv = true) ∧
    (∀ (p : Option Nat) (sp' : shared_ptr) (h' : Heap),
        sp.reset h true p = .ok (sp', h') → sp'.bothNullInv = true) := by
  refine ⟨rfl, ?_, ?_, ⟨hother, rfl⟩, ?_, ?_, ?_⟩
  · intro p sp' h' hp
    cases p with
    | none =>
      simp only [shared_ptr.ofRaw, Except.ok.injEq, Prod.mk.injEq] at hp
      rw [← hp.1]
      rfl
    | some q =>
      simp only [shared_ptr.ofRaw, if_pos, ite_true, Except.ok.injEq, Prod.mk.injEq] at hp
      rw [← hp.1]
      rfl
  · have he : (other.copyCtor h).1 = other := by
      cases ho : other._ref_count <;> simp [shared_ptr.copyCtor, ho] <;> rw [← ho]
    rw [he]
    exact hother
  · intro k c hk
    unfold World.copyAssign at hk
    by_cases hij : i = j
    · rw [if_pos hij] at hk
      exact hw k c hk
    · rw [if_neg hij] at hk
      cases hi : alookup i w.insts with
      | none => simp only [hi] at hk; exact hw k c hk
      | some a =>
        cases hj : alookup j w.insts with
        | none => simp only [hi, hj] at hk; exact hw k c hk
        | some b =>
          simp only [hi, hj] at hk
          rcases alookup_aupdate_cases k i _ _ c hk with hc | hc
          · subst hc
            exact hw j b hj
          · exact hw k c hc
  · intro k c hk
    unfold World.moveAssign at hk
    by_cases hij : i = j
    · rw [if_pos hij] at hk
      exact hw k c hk
    · rw [if_neg hij] at hk
      cases hi : alookup i w.insts with
      | none => simp only [hi] at hk; exact hw k c hk
      | some a =>
        cases hj : alookup j w.insts with
        | none => simp only [hi, hj] at hk; exact hw k c hk
        | some b =>
          simp only [hi, hj] at hk
          rcases alookup_aupdate_cases k j _ _ c hk with hc | hc
          · subst hc
            rfl
          · rcases alookup_aupdate_cases k i _ _ c hc with hc2 | hc2
            · subst hc2
              exact hw j b hj
            · exact hw k c hc2
  · intro p sp' h' hp
    cases p with
    | none =>
      simp only [shared_ptr.reset, Except.ok.injEq, Prod.mk.injEq] at hp
      rw [← hp.1]
      rfl
    | some q =>
      simp only [shared_ptr.reset, if_pos, ite_true, Except.ok.injEq, Prod.mk.injEq] at hp
      rw [← hp.1]
      rfl

/-- Witness for C9: the default instance and a copy of a live owner both
satisfy the invariant. -/
theorem C9_inv_preserved_witness :
    shared_ptr.bothNullInv shared_ptr.default = true ∧
    shared_ptr.bothNullInv (shared_ptr.copyCtor ⟨some 5, some 0⟩ ⟨[5], [(0, 1)], 1⟩).1
      = true := by
  have H := C9_inv_preserved ⟨none, none⟩ ⟨some 5, some 0⟩ ⟨[5], [(0, 1)], 1⟩
    ⟨⟨[5], [(0, 1)], 1⟩, []⟩ 0 1 rfl (fun k c hkc => nomatch hkc)
  exact ⟨H.1, H.2.2.1⟩

/-- C10: for two distinct instances that already reference the same control
block with counter `n ≥ 2`, copy assignment `a = b` leaves the counter at
`n`, leaves both instances' `get()` unchanged, and does not destroy the
managed object: the release before the adoption only decrements the counter
to `n - 1 ≥ 1`, so the destruction branch of `release` is not taken. -/
theorem C10_shared_block_copy_assign (w : World) (i j : Nat) (p : Option Nat) (rc n : Nat)
    (hij : i ≠ j)
    (hi : alookup i w.insts = some ⟨p, some rc⟩)
    (hj : alookup j w.insts = some ⟨p, some rc⟩)
    (hn : alookup rc w.heap.blocks = some n) (h2n : 2 ≤ n) (hnW : n < W64) :
    alookup rc (w.copyAssign i j).heap.blocks = some n ∧
    alookup i (w.copyAssign i j).insts = some ⟨p, some rc⟩ ∧
    alookup j (w.copyAssign i j).insts = some ⟨p, some rc⟩ ∧
    (∀ q, p = some q → (w.copyAssign i j).heap.objLive q = w.heap.objLive q) := by
  have hctr : w.heap.ctr rc = n := by simp [Heap.ctr, hn]
  have hne1 : ¬ w.heap.ctr rc = 1 := by omega
  have hne1n : ¬ n = 1 := by omega
  have harith1 : (n + (W64 - 1)) % W64 = n - 1 := by
    rw [W64_eq] at hnW ⊢
    omega
  have harith2 : (n - 1 + 1) % W64 = n := by
    rw [W64_eq] at hnW ⊢
    omega
  unfold World.copyAssign
  rw [if_neg hij]
  simp only [hi, hj]
  refine ⟨?_, ?_, ?_, ?_⟩
  · simp [shared_ptr.release, hne1, hne1n, Heap.ctr, alookup_aupdate_self, hn, hctr,
      harith1, harith2]
  · rw [alookup_aupdate_self, hi]
    rfl
  · rw [alookup_aupdate_ne _ _ hij]
    exact hj
  · intro q hq
    simp [shared_ptr.release, hne1, hne1n, hctr, Heap.ctr, hn, Heap.objLive]

/-- Witness for C10: both instances reference block `0` with counter `2`;
after `a = b` the counter is still `2` and both instances are unchanged. -/
theorem C10_shared_block_copy_assign_witness :
    alookup 0 ((⟨⟨[5], [(0, 2)], 1⟩,
        [(0, ⟨some 5, some 0⟩), (1, ⟨some 5, some 0⟩)]⟩ : World).copyAssign 0 1).heap.blocks
      = some 2 ∧
    alookup 0 ((⟨⟨[5], [(0, 2)], 1⟩,
        [(0, ⟨some 5, some 0⟩), (1, ⟨some 5, some 0⟩)]⟩ : World).copyAssign 0 1).insts
      = some ⟨some 5, some 0⟩ := by
  have H := C10_shared_block_copy_assign
    ⟨⟨[5], [(0, 2)], 1⟩, [(0, ⟨some 5, some 0⟩), (1, ⟨some 5, some 0⟩)]⟩
    0 1 (some 5) 0 2 (by decide) rfl rfl rfl (by decide) (by rw [W64_eq]; norm_num)
  exact ⟨H.1, H.2.1⟩

end SharedPtrSpec
